import Mathlib

/-!
Verification of the GR4 rainfall-runoff contribution (surfacelayer,
subsurface and openwater transfer functions).

The three Python transfer functions operate elementwise over the spatial
grid: every array operation in the source is an independent per-cell scalar
computation (the only intra-cell coupling is the Nash-cascade recursion over
the store index, modelled as a list recursion below).  The embedding
therefore models one grid cell, with every quantity a real number and the
cascade stores a list of reals.  Each definition mirrors the corresponding
lines of the Python source files.
-/

open Real

noncomputable section

namespace GR4

/-! ### SurfaceLayer, from src/surfacelayer/gr4.py -/

/-- Exchanger fields and the component output produced by one call of the
surface-layer transfer function, per cell. -/
structure SurfaceLayerOutputs where
  throughfall : ℝ
  snowmelt : ℝ
  transpiration : ℝ
  evaporation_soil_surface : ℝ
  evaporation_ponded_water : ℝ
  evaporation_openwater : ℝ
  actual_water_evapotranspiration_flux : ℝ


/-- Soil-surface evaporation depth of the surface layer
(src/surfacelayer/gr4.py lines 100-114), per cell.  The water-limited mask
of the source becomes the condition 0 ≤ e_minus_p; the numpy clamp
of en_over_x1 at 13 becomes the inner conditional. -/
def surfacelayer_es (x1 alpha soil_water_stress e_minus_p : ℝ) : ℝ :=
  let en := max e_minus_p 0
  let en_over_x1 := if e_minus_p ≥ 0 then en / x1 else 0
  let en_over_x1 := if en_over_x1 > 13 then 13 else en_over_x1
  let tanh_en_over_x1 := Real.tanh en_over_x1
  let s := if e_minus_p ≥ 0 then soil_water_stress * x1 else 0
  let s_alpha_over_x1 := s ^ alpha / x1
  if e_minus_p ≥ 0 then
    ((2 * s - s_alpha_over_x1) * tanh_en_over_x1)
      / (1 + (1 - soil_water_stress) * tanh_en_over_x1)
  else 0

/-- One call of the surface-layer transfer function
(src/surfacelayer/gr4.py lines 69-149), per cell.  The argument
water_level is accepted, as in the source signature, and not read.
The mask assignment of the source giving actual evapotranspiration e on
energy-limited cells becomes the else branch of the conditional. -/
def surfacelayer_run (soil_water_stress water_level rainfall_flux
    potential_water_evapotranspiration_flux x1 alpha dt : ℝ) :
    SurfaceLayerOutputs :=
  let p := rainfall_flux * dt
  let e := potential_water_evapotranspiration_flux * dt
  let e_minus_p := e - p
  let pn := max (-e_minus_p) 0
  let es := surfacelayer_es x1 alpha soil_water_stress e_minus_p
  let ae := if e_minus_p ≥ 0 then es + p else e
  { throughfall := pn / dt
    snowmelt := 0
    transpiration := 0
    evaporation_soil_surface := es / dt
    evaporation_ponded_water := 0
    evaporation_openwater := 0
    actual_water_evapotranspiration_flux := ae / dt }

/-! ### SubSurface, from src/subsurface/gr4.py -/

/-- Infiltration into the production store (src/subsurface/gr4.py
lines 104-123), per cell. -/
def subsurface_ps (x1 alpha s_ pn : ℝ) : ℝ :=
  let s_over_x1 := s_ / x1
  let pn_over_x1 := pn / x1
  let pn_over_x1 := if pn_over_x1 > 13 then 13 else pn_over_x1
  let tanh_pn_over_x1 := Real.tanh pn_over_x1
  if pn > 0 then
    (x1 * (1 - s_over_x1 ^ alpha) * tanh_pn_over_x1)
      / (1 + s_over_x1 * tanh_pn_over_x1)
  else 0

/-- Percolation from the production store (src/subsurface/gr4.py
lines 136-139), per cell; nu_scaled is the time-rescaled percolation
coefficient and s the store content after infiltration and evaporation. -/
def subsurface_perc (x1 beta nu_scaled s : ℝ) : ℝ :=
  s * (1 - (1 + (nu_scaled * (s / x1)) ^ (beta - 1)) ^ (1 / (1 - beta)))

/-- Outflow coefficient of every cascade store (src/subsurface/gr4.py
line 150); x4_scaled is the time-rescaled cascade time constant. -/
def nash_outflow_coefficient (nres : ℕ) (x4_scaled : ℝ) : ℝ :=
  1 - Real.exp ((1 - (nres : ℝ)) / x4_scaled)

/-- Sequential routing through the Nash cascade (src/subsurface/gr4.py
lines 152-158): each store receives the current-step outflow of its
predecessor (the first store receives the routed production), releases
the fraction k of its updated content, and keeps the rest.  Returns the
updated store contents and the per-store outflows. -/
def nash_cascade (k : ℝ) : ℝ → List ℝ → List ℝ × List ℝ
  | _, [] => ([], [])
  | inflow, s :: rest =>
    let sNew := s + inflow
    let q := sNew * k
    let tail := nash_cascade k q rest
    ((sNew - q) :: tail.1, q :: tail.2)

/-- Production routed towards the cascade (src/subsurface/gr4.py lines
125 and 141): the net precipitation minus infiltration, plus the
percolation computed from the store clamped after infiltration and
evaporation. -/
def subsurface_routed_production (x1 alpha beta nu dt s_ pn es : ℝ) : ℝ :=
  let ps := subsurface_ps x1 alpha s_ pn
  let s := max (s_ + ps - es) 0
  (pn - ps) + subsurface_perc x1 beta (nu * (86400 / dt) ^ ((0.25 : ℝ))) s

/-- Production store written back (src/subsurface/gr4.py lines 129-144):
clamped after infiltration and evaporation, then reduced by
percolation. -/
def subsurface_store_after (x1 alpha beta nu dt s_ pn es : ℝ) : ℝ :=
  let ps := subsurface_ps x1 alpha s_ pn
  let s := max (s_ + ps - es) 0
  s - subsurface_perc x1 beta (nu * (86400 / dt) ^ ((0.25 : ℝ))) s

/-- Exchanger fields and updated states produced by one call of the
subsurface transfer function, per cell. -/
structure SubSurfaceOutputs where
  surface_runoff : ℝ
  subsurface_runoff : ℝ
  soil_water_stress : ℝ
  production_store : ℝ
  nash_cascade_stores : List ℝ


/-- One call of the subsurface transfer function
(src/subsurface/gr4.py lines 77-178), per cell.  The numpy statement
multiplying s by the boolean s > 0 zeroes the negative values, i.e.
takes max s 0. -/
def subsurface_run (transpiration evaporation_soil_surface
    evaporation_ponded_water throughfall snowmelt x1 x4 : ℝ)
    (s_ : ℝ) (sh_ : List ℝ) (alpha beta nu dt : ℝ) : SubSurfaceOutputs :=
  let pn := (throughfall + snowmelt) * dt
  let es := (transpiration + evaporation_soil_surface
      + evaporation_ponded_water) * dt
  let nres := sh_.length
  let x4_scaled := x4 * (86400 / dt)
  let pr := subsurface_routed_production x1 alpha beta nu dt s_ pn es
  let s := subsurface_store_after x1 alpha beta nu dt s_ pn es
  let k := nash_outflow_coefficient nres x4_scaled
  let routed := nash_cascade k pr sh_
  let quh := routed.2.getLastD 0
  { surface_runoff := 0
    subsurface_runoff := quh / dt
    soil_water_stress := s / x1
    production_store := s
    nash_cascade_stores := routed.1 }

/-! ### OpenWater, from src/openwater/gr4.py -/

/-- Inter-catchment exchange (src/openwater/gr4.py lines 97-102),
per cell. -/
def openwater_f (x2 x3 omega r_ : ℝ) : ℝ :=
  if r_ > 0 then x2 * (r_ / x3) ^ omega else 0

/-- Updated routing store (src/openwater/gr4.py lines 105-106): the sum
of previous content, routed inflow and exchange, floored at zero. -/
def openwater_r (r_ q9 f : ℝ) : ℝ := max (r_ + q9 + f) 0

/-- Outflow from the routing store exactly as written in the source
(src/openwater/gr4.py lines 107-112): note that the exponent
1 / (1 - gamma) is applied to the inner power (r / x3) ^ (gamma - 1)
alone, inside the parenthesis following 1 +. -/
def openwater_qr (x3 gamma r : ℝ) : ℝ :=
  if r > 0 then
    r * (1 - (1 + ((r / x3) ^ (gamma - 1)) ^ (1 / (1 - gamma))))
  else 0

/-- Modelled from the spec: the routing-store outflow as the
specification states it, where the exponent 1 / (1 - gamma) is applied
to the whole quantity 1 + (r / x3) ^ (gamma - 1).  Kept separately from
openwater_qr for comparison. -/
def openwater_qr_specification (x3 gamma r : ℝ) : ℝ :=
  if r > 0 then
    r * (1 - (1 + (r / x3) ^ (gamma - 1)) ^ (1 / (1 - gamma)))
  else 0

/-- Direct-branch flow (src/openwater/gr4.py line 115). -/
def openwater_qd (q1 f : ℝ) : ℝ := max (q1 + f) 0

/-- Total flow (src/openwater/gr4.py lines 118-119). -/
def openwater_q (qr qd : ℝ) : ℝ := max (qr + qd) 0

/-- Exchanger field, component output and updated state produced by one
call of the openwater transfer function, per cell. -/
structure OpenWaterOutputs where
  water_level : ℝ
  outgoing_water_volume_transport_along_river_channel : ℝ
  routing_store : ℝ


/-- One call of the openwater transfer function
(src/openwater/gr4.py lines 76-133), per cell. -/
def openwater_run (surface_runoff subsurface_runoff evaporation_openwater
    x2 x3 : ℝ) (r_ : ℝ) (gamma omega phi dt : ℝ) : OpenWaterOutputs :=
  let quh := (surface_runoff + subsurface_runoff) * dt
  let q9 := quh * phi
  let q1 := quh * (1 - phi)
  let f := openwater_f x2 x3 omega r_
  let r := openwater_r r_ q9 f
  let qr := openwater_qr x3 gamma r
  let qd := openwater_qd q1 f
  let q := openwater_q qr qd
  { water_level := r
    outgoing_water_volume_transport_along_river_channel := q
    routing_store := r }

/-! ### The three-component chain -/

/-- One timestep of the SurfaceLayer, SubSurface, OpenWater chain for one
cell: the surface layer reads the lagged soil-water-stress (production
store over x1) and water-level (routing store) feedback from the carried
state, its exchanger fields feed the subsurface run, whose runoff fields
feed the openwater run. -/
def chain_step (x1 x2 x3 x4 alpha beta nu gamma omega phi dt : ℝ)
    (state : ℝ × List ℝ × ℝ) (rain pet : ℝ) :
    SurfaceLayerOutputs × SubSurfaceOutputs × OpenWaterOutputs :=
  let s_ := state.1
  let sh_ := state.2.1
  let r_ := state.2.2
  let sl := surfacelayer_run (s_ / x1) r_ rain pet x1 alpha dt
  let ss := subsurface_run sl.transpiration sl.evaporation_soil_surface
      sl.evaporation_ponded_water sl.throughfall sl.snowmelt x1 x4 s_ sh_
      alpha beta nu dt
  let ow := openwater_run ss.surface_runoff ss.subsurface_runoff
      sl.evaporation_openwater x2 x3 r_ gamma omega phi dt
  (sl, ss, ow)

/-- The state written back by one chain step: production store, cascade
stores and routing store. -/
def chain_next_state
    (out : SurfaceLayerOutputs × SubSurfaceOutputs × OpenWaterOutputs) :
    ℝ × List ℝ × ℝ :=
  (out.2.1.production_store, out.2.1.nash_cascade_stores,
    out.2.2.routing_store)

/-- State after n chain steps, starting from the zero-initialised stores
(the initialise contract zero-fills every store), driven by the given
forcing series. -/
def chain_state (x1 x2 x3 x4 alpha beta nu gamma omega phi dt : ℝ)
    (nres : ℕ) (forcing : ℕ → ℝ × ℝ) : ℕ → ℝ × List ℝ × ℝ
  | 0 => (0, List.replicate nres 0, 0)
  | n + 1 =>
    chain_next_state
      (chain_step x1 x2 x3 x4 alpha beta nu gamma omega phi dt
        (chain_state x1 x2 x3 x4 alpha beta nu gamma omega phi dt
          nres forcing n)
        (forcing n).1 (forcing n).2)

/-! ### Lemmas about the Nash cascade recursion -/

lemma nash_cascade_fst_length (k : ℝ) (l : List ℝ) :
    ∀ inflow, ((nash_cascade k inflow l).1).length = l.length := by
  induction l with
  | nil => intro inflow; rfl
  | cons s rest ih => intro inflow; simp [nash_cascade, ih]

lemma nash_cascade_snd_length (k : ℝ) (l : List ℝ) :
    ∀ inflow, ((nash_cascade k inflow l).2).length = l.length := by
  induction l with
  | nil => intro inflow; rfl
  | cons s rest ih => intro inflow; simp [nash_cascade, ih]

lemma nash_cascade_snd_zero (k inflow s : ℝ) (rest : List ℝ) :
    (nash_cascade k inflow (s :: rest)).2.getD 0 0 = (s + inflow) * k := by
  simp [nash_cascade]

lemma nash_cascade_fst_zero (k inflow s : ℝ) (rest : List ℝ) :
    (nash_cascade k inflow (s :: rest)).1.getD 0 0
      = (s + inflow) - (nash_cascade k inflow (s :: rest)).2.getD 0 0 := by
  simp [nash_cascade]

lemma nash_cascade_snd_succ (k : ℝ) (l : List ℝ) :
    ∀ (inflow : ℝ) (i : ℕ), i + 1 < l.length →
      (nash_cascade k inflow l).2.getD (i + 1) 0
        = (l.getD (i + 1) 0 + (nash_cascade k inflow l).2.getD i 0) * k := by
  induction l with
  | nil => intro inflow i h; simp at h
  | cons s rest ih =>
    intro inflow i h
    cases i with
    | zero =>
      cases rest with
      | nil => simp at h
      | cons s2 rest2 => simp [nash_cascade]
    | succ j =>
      have h' : j + 1 < rest.length := by
        simpa using Nat.lt_of_succ_lt_succ h
      simpa [nash_cascade] using ih ((s + inflow) * k) j h'

lemma nash_cascade_fst_succ (k : ℝ) (l : List ℝ) :
    ∀ (inflow : ℝ) (i : ℕ), i + 1 < l.length →
      (nash_cascade k inflow l).1.getD (i + 1) 0
        = (l.getD (i + 1) 0 + (nash_cascade k inflow l).2.getD i 0)
          - (nash_cascade k inflow l).2.getD (i + 1) 0 := by
  induction l with
  | nil => intro inflow i h; simp at h
  | cons s rest ih =>
    intro inflow i h
    cases i with
    | zero =>
      cases rest with
      | nil => simp at h
      | cons s2 rest2 => simp [nash_cascade]
    | succ j =>
      have h' : j + 1 < rest.length := by
        simpa using Nat.lt_of_succ_lt_succ h
      simpa [nash_cascade] using ih ((s + inflow) * k) j h'

lemma nash_cascade_cons (k inflow s : ℝ) (rest : List ℝ) :
    nash_cascade k inflow (s :: rest)
      = ((s + inflow - (s + inflow) * k)
            :: (nash_cascade k ((s + inflow) * k) rest).1,
          (s + inflow) * k
            :: (nash_cascade k ((s + inflow) * k) rest).2) := rfl

lemma getLastD_of_ne_nil {l : List ℝ} (h : l ≠ []) (a b : ℝ) :
    l.getLastD a = l.getLastD b := by
  cases l with
  | nil => exact absurd rfl h
  | cons s rest => rw [List.getLastD_cons, List.getLastD_cons]

lemma getLastD_eq_getD {l : List ℝ} (d : ℝ) :
    l ≠ [] → l.getLastD d = l.getD (l.length - 1) d := by
  induction l generalizing d with
  | nil => intro h; exact absurd rfl h
  | cons s rest ih =>
    intro _
    cases rest with
    | nil => rw [List.getLastD_cons]; rfl
    | cons s2 rest2 =>
      rw [List.getLastD_cons, ih s (by simp)]
      have hlen : (s :: s2 :: rest2).length - 1
          = ((s2 :: rest2).length - 1) + 1 := by simp
      rw [hlen, List.getD_cons_succ]
      have hidx : (s2 :: rest2).length - 1 < (s2 :: rest2).length := by simp
      rw [List.getD_eq_getElem _ _ hidx, List.getD_eq_getElem _ _ hidx]

lemma nash_cascade_sum (k : ℝ) (l : List ℝ) :
    ∀ inflow, l ≠ [] →
      (nash_cascade k inflow l).1.sum
        = l.sum + inflow - (nash_cascade k inflow l).2.getLastD 0 := by
  induction l with
  | nil => intro inflow h; exact absurd rfl h
  | cons s rest ih =>
    intro inflow _
    cases rest with
    | nil =>
      rw [nash_cascade_cons]
      simp [nash_cascade, List.getLastD_cons]
    | cons s2 rest2 =>
      have htail : (nash_cascade k ((s + inflow) * k) (s2 :: rest2)).2 ≠ [] := by
        have hlen := nash_cascade_snd_length k (s2 :: rest2) ((s + inflow) * k)
        intro hnil
        rw [hnil] at hlen
        simp at hlen
      have ihq := ih ((s + inflow) * k) (by simp)
      rw [nash_cascade_cons]
      simp only [List.sum_cons, List.getLastD_cons]
      rw [getLastD_of_ne_nil htail ((s + inflow) * k) 0, ihq]
      simp only [List.sum_cons]
      ring

/-! ### Analytic facts about tanh and the power-law factors -/

lemma tanh_nonneg_of_nonneg {x : ℝ} (hx : 0 ≤ x) : 0 ≤ Real.tanh x := by
  rw [Real.tanh_eq_sinh_div_cosh]
  exact div_nonneg (Real.sinh_nonneg_iff.2 hx) (Real.cosh_pos x).le

lemma tanh_lt_one_aux (x : ℝ) : Real.tanh x < 1 := by
  rw [Real.tanh_eq_sinh_div_cosh, div_lt_one (Real.cosh_pos x)]
  exact Real.sinh_lt_cosh x

lemma sinh_le_mul_cosh {x : ℝ} (hx : 0 ≤ x) :
    Real.sinh x ≤ x * Real.cosh x := by
  have hmono : Monotone fun y : ℝ => y * Real.cosh y - Real.sinh y := by
    have hder : ∀ y : ℝ,
        HasDerivAt (fun y : ℝ => y * Real.cosh y - Real.sinh y)
          (1 * Real.cosh y + y * Real.sinh y - Real.cosh y) y := fun y =>
      ((hasDerivAt_id' y).mul (Real.hasDerivAt_cosh y)).sub
        (Real.hasDerivAt_sinh y)
    refine monotone_of_deriv_nonneg (fun y => (hder y).differentiableAt) ?_
    intro y
    rw [(hder y).deriv]
    have heq : 1 * Real.cosh y + y * Real.sinh y - Real.cosh y
        = y * Real.sinh y := by ring
    rw [heq]
    rcases le_total 0 y with h | h
    · exact mul_nonneg h (Real.sinh_nonneg_iff.2 h)
    · have hs : Real.sinh y ≤ 0 := Real.sinh_nonpos_iff.2 h
      have hprod := mul_nonneg (neg_nonneg.2 h) (neg_nonneg.2 hs)
      simpa using hprod
  have h0 := hmono hx
  simp only [Real.sinh_zero, Real.cosh_zero, zero_mul, sub_zero] at h0
  linarith

lemma tanh_le_self {x : ℝ} (hx : 0 ≤ x) : Real.tanh x ≤ x := by
  rw [Real.tanh_eq_sinh_div_cosh, div_le_iff (Real.cosh_pos x)]
  exact sinh_le_mul_cosh hx

lemma tanh_thirteen_lower : (9 : ℝ) / 10 ≤ Real.tanh 13 := by
  have hE : (14 : ℝ) ≤ Real.exp 13 := by
    have h := Real.add_one_le_exp (13 : ℝ)
    linarith
  have hEpos : (0 : ℝ) < Real.exp 13 := Real.exp_pos 13
  have hinvpos : (0 : ℝ) < (Real.exp 13)⁻¹ := inv_pos.2 hEpos
  have hinvle : (Real.exp 13)⁻¹ ≤ (14 : ℝ)⁻¹ := by
    apply inv_le_inv_of_le (by norm_num) hE
  rw [Real.tanh_eq_sinh_div_cosh, Real.sinh_eq, Real.cosh_eq, Real.exp_neg]
  have hden : (0 : ℝ) < (Real.exp 13 + (Real.exp 13)⁻¹) / 2 := by positivity
  rw [le_div_iff hden]
  norm_num at hinvle ⊢
  linarith

lemma clamp13_bounds {z : ℝ} (hz : 0 ≤ z) :
    0 ≤ (if z > 13 then (13 : ℝ) else z)
      ∧ (if z > 13 then (13 : ℝ) else z) ≤ z := by
  constructor <;> split_ifs with h
  · norm_num
  · exact hz
  · linarith
  · exact le_refl z

/-! ### Nonnegativity and capacity facts about the subsurface stores -/

lemma subsurface_ps_le_pn {x1 alpha s_ pn : ℝ} (hx1 : 0 < x1)
    (hs : 0 ≤ s_) (hpn : 0 ≤ pn) : subsurface_ps x1 alpha s_ pn ≤ pn := by
  simp only [subsurface_ps]
  by_cases h : pn > 0
  · rw [if_pos h]
    obtain ⟨hm0, hmle⟩ := clamp13_bounds (div_nonneg hpn hx1.le)
    set m := if pn / x1 > 13 then (13 : ℝ) else pn / x1 with hmdef
    set T := Real.tanh m with hTdef
    have hT0 : 0 ≤ T := tanh_nonneg_of_nonneg hm0
    have hTle : T ≤ pn / x1 := le_trans (tanh_le_self hm0) hmle
    have hσ0 : 0 ≤ s_ / x1 := div_nonneg hs hx1.le
    have hσα : 0 ≤ (s_ / x1) ^ alpha := Real.rpow_nonneg hσ0 _
    have hD1 : (1 : ℝ) ≤ 1 + s_ / x1 * T := by nlinarith
    have hxT : x1 * T ≤ pn := by
      have h2 := (le_div_iff₀ hx1).1 hTle
      linarith
    by_cases hN : 0 ≤ x1 * (1 - (s_ / x1) ^ alpha) * T
    · have hdiv : x1 * (1 - (s_ / x1) ^ alpha) * T / (1 + s_ / x1 * T)
          ≤ x1 * (1 - (s_ / x1) ^ alpha) * T := div_le_self hN hD1
      have hnum : x1 * (1 - (s_ / x1) ^ alpha) * T ≤ x1 * T := by
        nlinarith [mul_nonneg (mul_nonneg hx1.le hT0) hσα]
      linarith
    · push_neg at hN
      have hle : x1 * (1 - (s_ / x1) ^ alpha) * T / (1 + s_ / x1 * T) ≤ 0 :=
        div_nonpos_iff.mpr (Or.inr ⟨hN.le, by linarith⟩)
      linarith
  · rw [if_neg h]; exact hpn

lemma subsurface_perc_nonneg {x1 beta nuS s : ℝ} (hs : 0 ≤ s)
    (hnuS : 0 ≤ nuS) (hb : 1 < beta) (hx1 : 0 < x1) :
    0 ≤ subsurface_perc x1 beta nuS s := by
  simp only [subsurface_perc]
  have hc : 0 ≤ nuS * (s / x1) := mul_nonneg hnuS (div_nonneg hs hx1.le)
  have hX : 0 ≤ (nuS * (s / x1)) ^ (beta - 1) := Real.rpow_nonneg hc _
  have hF : (1 + (nuS * (s / x1)) ^ (beta - 1)) ^ (1 / (1 - beta)) ≤ 1 := by
    apply Real.rpow_le_one_of_one_le_of_nonpos (by linarith)
    have h1 : 1 - beta < 0 := by linarith
    exact le_of_lt (div_neg_of_pos_of_neg one_pos h1)
  exact mul_nonneg hs (by linarith)

lemma subsurface_perc_le_self {x1 beta nuS s : ℝ} (hs : 0 ≤ s)
    (hnuS : 0 ≤ nuS) (hb : 1 < beta) (hx1 : 0 < x1) :
    subsurface_perc x1 beta nuS s ≤ s := by
  simp only [subsurface_perc]
  have hc : 0 ≤ nuS * (s / x1) := mul_nonneg hnuS (div_nonneg hs hx1.le)
  have hX : 0 ≤ (nuS * (s / x1)) ^ (beta - 1) := Real.rpow_nonneg hc _
  have hF0 : 0 ≤ (1 + (nuS * (s / x1)) ^ (beta - 1)) ^ (1 / (1 - beta)) :=
    Real.rpow_nonneg (by linarith) _
  nlinarith

lemma scaled_nu_nonneg {nu dt : ℝ} (hnu : 0 ≤ nu) (hdt : 0 < dt) :
    0 ≤ nu * (86400 / dt) ^ ((0.25 : ℝ)) :=
  mul_nonneg hnu (Real.rpow_nonneg (by positivity) _)

lemma subsurface_store_after_nonneg
    {x1 alpha beta nu dt s_ pn es : ℝ} (hx1 : 0 < x1) (hnu : 0 ≤ nu)
    (hdt : 0 < dt) (hb : 1 < beta) :
    0 ≤ subsurface_store_after x1 alpha beta nu dt s_ pn es := by
  simp only [subsurface_store_after]
  have hs20 : 0 ≤ max (s_ + subsurface_ps x1 alpha s_ pn - es) 0 :=
    le_max_right _ _
  have h := subsurface_perc_le_self hs20 (scaled_nu_nonneg hnu hdt) hb hx1
  linarith

lemma subsurface_routed_production_nonneg
    {x1 alpha beta nu dt s_ pn es : ℝ} (hx1 : 0 < x1) (hs : 0 ≤ s_)
    (hpn : 0 ≤ pn) (hnu : 0 ≤ nu) (hdt : 0 < dt) (hb : 1 < beta) :
    0 ≤ subsurface_routed_production x1 alpha beta nu dt s_ pn es := by
  simp only [subsurface_routed_production]
  have hps := @subsurface_ps_le_pn x1 alpha s_ pn hx1 hs hpn
  have hs20 : 0 ≤ max (s_ + subsurface_ps x1 alpha s_ pn - es) 0 :=
    le_max_right _ _
  have hperc := subsurface_perc_nonneg hs20 (scaled_nu_nonneg hnu hdt) hb hx1
  linarith

lemma nash_outflow_coefficient_nonneg {n : ℕ} {x4s : ℝ} (hn : 1 ≤ n)
    (hx : 0 < x4s) : 0 ≤ nash_outflow_coefficient n x4s := by
  simp only [nash_outflow_coefficient]
  have h1 : (1 : ℝ) - (n : ℝ) ≤ 0 := by
    have hcast : (1 : ℝ) ≤ (n : ℝ) := by exact_mod_cast hn
    linarith
  have h2 : (1 - (n : ℝ)) / x4s ≤ 0 := by
    have h3 := (div_le_div_iff_of_pos_right hx).2 h1
    simpa using h3
  have h4 : Real.exp ((1 - (n : ℝ)) / x4s) ≤ 1 := Real.exp_le_one_iff.2 h2
  linarith

lemma nash_outflow_coefficient_le_one (n : ℕ) (x4s : ℝ) :
    nash_outflow_coefficient n x4s ≤ 1 := by
  simp only [nash_outflow_coefficient]
  have h := Real.exp_pos ((1 - (n : ℝ)) / x4s)
  linarith

lemma nash_cascade_nonneg {k : ℝ} (hk0 : 0 ≤ k) (hk1 : k ≤ 1)
    (l : List ℝ) :
    ∀ inflow, 0 ≤ inflow → (∀ y ∈ l, 0 ≤ y) →
      ∀ y ∈ (nash_cascade k inflow l).1, 0 ≤ y := by
  induction l with
  | nil => intro inflow _ _ y hy; simp [nash_cascade] at hy
  | cons s rest ih =>
    intro inflow hin hl y hy
    rw [nash_cascade_cons] at hy
    rcases List.mem_cons.1 hy with h | h
    · have hs0 : 0 ≤ s := hl s (by simp)
      subst h
      nlinarith
    · have hs0 : 0 ≤ s := hl s (by simp)
      exact ih ((s + inflow) * k)
        (mul_nonneg (by linarith) hk0)
        (fun z hz => hl z (by simp [hz])) y h

/-! ### Claims about the cascade routing -/

/-- C3: the subsurface run routes the production through the Nash cascade
as a strict sequential recursion.  With outflow coefficient
k = 1 - exp((1 - nres) / x4), x4 rescaled by 86400 / dt, store 0 receives
the routed production pr added to its previous content and releases the
fraction k of its updated content into store 1's input, each further store
receiving the current-step outflow of its predecessor; the final store's
outflow is the subsurface runoff before division by the timestep
length. -/
theorem subsurface_cascade_sequential
    (transpiration evaporation_soil_surface evaporation_ponded_water
      throughfall snowmelt x1 x4 s_ alpha beta nu dt : ℝ) (sh_ : List ℝ)
    (pr k : ℝ) (hne : sh_ ≠ [])
    (hpr : pr = subsurface_routed_production x1 alpha beta nu dt s_
        ((throughfall + snowmelt) * dt)
        ((transpiration + evaporation_soil_surface
          + evaporation_ponded_water) * dt))
    (hk : k = 1 - Real.exp ((1 - (sh_.length : ℝ)) / (x4 * (86400 / dt)))) :
    (nash_cascade k pr sh_).2.getD 0 0 = (sh_.getD 0 0 + pr) * k
      ∧ (subsurface_run transpiration evaporation_soil_surface
            evaporation_ponded_water throughfall snowmelt x1 x4 s_ sh_
            alpha beta nu dt).nash_cascade_stores.getD 0 0
          = (sh_.getD 0 0 + pr) - (nash_cascade k pr sh_).2.getD 0 0
      ∧ (∀ i, i + 1 < sh_.length →
          (nash_cascade k pr sh_).2.getD (i + 1) 0
              = (sh_.getD (i + 1) 0 + (nash_cascade k pr sh_).2.getD i 0) * k
            ∧ (subsurface_run transpiration evaporation_soil_surface
                  evaporation_ponded_water throughfall snowmelt x1 x4 s_ sh_
                  alpha beta nu dt).nash_cascade_stores.getD (i + 1) 0
              = (sh_.getD (i + 1) 0 + (nash_cascade k pr sh_).2.getD i 0)
                - (nash_cascade k pr sh_).2.getD (i + 1) 0)
      ∧ (subsurface_run transpiration evaporation_soil_surface
            evaporation_ponded_water throughfall snowmelt x1 x4 s_ sh_
            alpha beta nu dt).subsurface_runoff
          = (nash_cascade k pr sh_).2.getD (sh_.length - 1) 0 / dt := by
  subst hpr
  subst hk
  set pr := subsurface_routed_production x1 alpha beta nu dt s_
      ((throughfall + snowmelt) * dt)
      ((transpiration + evaporation_soil_surface
        + evaporation_ponded_water) * dt) with hprdef
  set k := 1 - Real.exp ((1 - (sh_.length : ℝ)) / (x4 * (86400 / dt)))
    with hkdef
  have hstores : (subsurface_run transpiration evaporation_soil_surface
      evaporation_ponded_water throughfall snowmelt x1 x4 s_ sh_
      alpha beta nu dt).nash_cascade_stores = (nash_cascade k pr sh_).1 := rfl
  have hrunoff : (subsurface_run transpiration evaporation_soil_surface
      evaporation_ponded_water throughfall snowmelt x1 x4 s_ sh_
      alpha beta nu dt).subsurface_runoff
      = (nash_cascade k pr sh_).2.getLastD 0 / dt := rfl
  obtain ⟨s, rest, rfl⟩ := List.exists_cons_of_ne_nil hne
  refine ⟨?_, ?_, ?_, ?_⟩
  · rw [nash_cascade_snd_zero]
    simp
  · rw [hstores, nash_cascade_fst_zero]
    simp
  · intro i hi
    constructor
    · exact nash_cascade_snd_succ k (s :: rest) pr i hi
    · rw [hstores]
      exact nash_cascade_fst_succ k (s :: rest) pr i hi
  · have hqne : (nash_cascade k pr (s :: rest)).2 ≠ [] := by
      have hlen := nash_cascade_snd_length k (s :: rest) pr
      intro hnil
      rw [hnil] at hlen
      simp at hlen
    have hlen : (nash_cascade k pr (s :: rest)).2.length = (s :: rest).length :=
      nash_cascade_snd_length k (s :: rest) pr
    rw [hrunoff, getLastD_eq_getD 0 hqne, hlen]

/-- C3 witness: the sequential-cascade statement applied to a two-store
cascade with zero fluxes and unit parameters. -/
theorem subsurface_cascade_sequential_witness :
    (subsurface_run 0 0 0 0 0 1 1 0 [0, 0] 2 5 (4/9) 1).subsurface_runoff
      = (nash_cascade
            (1 - Real.exp ((1 - (([0, 0] : List ℝ).length : ℝ))
              / (1 * (86400 / 1))))
            (subsurface_routed_production 1 2 5 (4/9) 1 0 ((0 + 0) * 1)
              ((0 + 0 + 0) * 1))
            [0, 0]).2.getD (([0, 0] : List ℝ).length - 1) 0 / 1 :=
  (subsurface_cascade_sequential 0 0 0 0 0 1 1 0 2 5 (4/9) 1 [0, 0] _ _
    (by simp) rfl rfl).2.2.2

/-- C4: one subsurface cascade step conserves mass — the sum of the updated
cascade store contents equals the sum of the previous contents plus the
injected routed production pr minus the final store's outflow. -/
theorem subsurface_cascade_mass_conservation
    (transpiration evaporation_soil_surface evaporation_ponded_water
      throughfall snowmelt x1 x4 s_ alpha beta nu dt : ℝ) (sh_ : List ℝ)
    (pr k : ℝ) (hne : sh_ ≠ [])
    (hpr : pr = subsurface_routed_production x1 alpha beta nu dt s_
        ((throughfall + snowmelt) * dt)
        ((transpiration + evaporation_soil_surface
          + evaporation_ponded_water) * dt))
    (hk : k = nash_outflow_coefficient sh_.length (x4 * (86400 / dt))) :
    (subsurface_run transpiration evaporation_soil_surface
          evaporation_ponded_water throughfall snowmelt x1 x4 s_ sh_
          alpha beta nu dt).nash_cascade_stores.sum
      = sh_.sum + pr - (nash_cascade k pr sh_).2.getLastD 0 := by
  subst hpr
  subst hk
  have hstores : (subsurface_run transpiration evaporation_soil_surface
      evaporation_ponded_water throughfall snowmelt x1 x4 s_ sh_
      alpha beta nu dt).nash_cascade_stores
      = (nash_cascade (nash_outflow_coefficient sh_.length (x4 * (86400 / dt)))
          (subsurface_routed_production x1 alpha beta nu dt s_
            ((throughfall + snowmelt) * dt)
            ((transpiration + evaporation_soil_surface
              + evaporation_ponded_water) * dt)) sh_).1 := rfl
  rw [hstores]
  exact nash_cascade_sum _ sh_ _ hne

/-- C4 witness: the cascade mass-conservation statement applied to a
one-store cascade with zero fluxes and unit parameters. -/
theorem subsurface_cascade_mass_conservation_witness :
    (subsurface_run 0 0 0 0 0 1 1 0 [0] 2 5 (4/9) 1).nash_cascade_stores.sum
      = ([0] : List ℝ).sum
          + subsurface_routed_production 1 2 5 (4/9) 1 0 ((0 + 0) * 1)
              ((0 + 0 + 0) * 1)
          - (nash_cascade
              (nash_outflow_coefficient ([0] : List ℝ).length (1 * (86400 / 1)))
              (subsurface_routed_production 1 2 5 (4/9) 1 0 ((0 + 0) * 1)
                ((0 + 0 + 0) * 1))
              [0]).2.getLastD 0 :=
  subsurface_cascade_mass_conservation 0 0 0 0 0 1 1 0 2 5 (4/9) 1 [0] _ _
    (by simp) rfl rfl

/-! ### Claims about the openwater and surfacelayer interfaces -/

/-- C9: two surface-layer calls whose inputs are identical except for the
water-level signal produce identical outputs — every exchanger field and
the actual evapotranspiration flux; the water-level signal does not
affect the result. -/
theorem surfacelayer_water_level_noninterference
    (soil_water_stress rainfall_flux potential_water_evapotranspiration_flux
      x1 alpha dt wl wl' : ℝ) :
    surfacelayer_run soil_water_stress wl rainfall_flux
        potential_water_evapotranspiration_flux x1 alpha dt
      = surfacelayer_run soil_water_stress wl' rainfall_flux
        potential_water_evapotranspiration_flux x1 alpha dt := rfl

/-- C2 (amended): the streamflow component output of the openwater run is
the total flow depth q = max(qr + qd, 0) itself — composed from the
routing outflow at the updated store and the direct-branch flow — with no
division by the timestep length inside the component. -/
theorem openwater_output_is_total_flow_depth
    (surface_runoff subsurface_runoff evaporation_openwater x2 x3 r_
      gamma omega phi dt : ℝ) :
    (openwater_run surface_runoff subsurface_runoff evaporation_openwater
          x2 x3 r_ gamma omega phi
          dt).outgoing_water_volume_transport_along_river_channel
      = openwater_q
          (openwater_qr x3 gamma
            (openwater_r r_ ((surface_runoff + subsurface_runoff) * dt * phi)
              (openwater_f x2 x3 omega r_)))
          (openwater_qd
            ((surface_runoff + subsurface_runoff) * dt * (1 - phi))
            (openwater_f x2 x3 omega r_)) := rfl

/-- C2 counterexample: with unit surface-runoff flux, a daily timestep,
phi = 0 and an empty routing store, the emitted streamflow equals the
total flow depth 86400, while the claimed value, that depth divided by the
timestep length, is 1: the output is not divided by the timestep. -/
theorem openwater_output_not_divided_by_dt :
    (openwater_run 1 0 0 0 1 0 5 (7/2) 0
          86400).outgoing_water_volume_transport_along_river_channel
        = 86400 ∧
      openwater_q (openwater_qr 1 5 (openwater_r 0 0 (openwater_f 0 1 (7/2) 0)))
          (openwater_qd 86400 (openwater_f 0 1 (7/2) 0)) = 86400 ∧
      (86400 : ℝ) / 86400 ≠ 86400 := by
  refine ⟨?_, ?_, by norm_num⟩ <;>
    norm_num [openwater_run, openwater_q, openwater_qr, openwater_r,
      openwater_qd, openwater_f]

/-- C1: at routing store content r = 1 with x3 = 1 and gamma = 5, the
outflow computed by the source evaluates to -1 = -x3, while the
specification's formula evaluates to 1 - 2 ^ (1 / (1 - 5)), which is
positive: the source applies the outer exponent to the inner power alone
and its routing outflow is -x3 wherever r is positive. -/
theorem openwater_qr_differs_from_specification :
    openwater_qr 1 5 1 = -1 ∧
      openwater_qr_specification 1 5 1 = 1 - (2 : ℝ) ^ ((1 : ℝ) / (1 - 5)) ∧
      openwater_qr_specification 1 5 1 ≠ openwater_qr 1 5 1 := by
  have h1 : openwater_qr 1 5 1 = -1 := by
    norm_num [openwater_qr, Real.one_rpow]
  have h2 : openwater_qr_specification 1 5 1
      = 1 - (2 : ℝ) ^ ((1 : ℝ) / (1 - 5)) := by
    norm_num [openwater_qr_specification, Real.one_rpow]
  refine ⟨h1, h2, ?_⟩
  rw [h1, h2]
  have hlt : (2 : ℝ) ^ ((1 : ℝ) / (1 - 5)) < 1 :=
    Real.rpow_lt_one_of_one_lt_of_neg (by norm_num) (by norm_num)
  intro h
  have : (2 : ℝ) ^ ((1 : ℝ) / (1 - 5)) = 2 := by linarith
  linarith

/-- C7 counterexample: with an empty previous routing store but a unit
routed inflow (x3 = 1, gamma = 5), the exchange is zero yet the updated
store is 1 and the routing outflow evaluates to -1, not zero: the claim
that an empty previous store forces a zero outflow fails. -/
theorem openwater_qr_nonzero_with_empty_previous_store :
    openwater_f 0 1 (7/2) 0 = 0 ∧
      openwater_qr 1 5 (openwater_r 0 1 (openwater_f 0 1 (7/2) 0)) ≠ 0 := by
  constructor
  · simp [openwater_f]
  · have hr : openwater_r 0 1 (openwater_f 0 1 (7/2) 0) = 1 := by
      norm_num [openwater_r, openwater_f]
    rw [hr]
    norm_num [openwater_qr, Real.one_rpow]

/-- C7 (amended): with an empty previous routing store the exchange term
is zero; and if additionally the routed inflow q9 is zero — as when the
runoff inputs are zero — the updated store stays empty and the routing
outflow is zero as well. -/
theorem openwater_empty_store_exchange_and_outflow_zero
    (x2 x3 omega gamma q9 : ℝ) :
    openwater_f x2 x3 omega 0 = 0 ∧
      (q9 = 0 →
        openwater_qr x3 gamma (openwater_r 0 q9 (openwater_f x2 x3 omega 0))
          = 0) := by
  have hf : openwater_f x2 x3 omega 0 = 0 := by simp [openwater_f]
  refine ⟨hf, ?_⟩
  rintro rfl
  rw [hf]
  have hr : openwater_r 0 0 0 = 0 := by norm_num [openwater_r]
  rw [hr]
  simp [openwater_qr]

/-- C7 witness: the amended statement applied at x2 = 1, x3 = 1,
omega = 7/2, gamma = 5 and zero routed inflow. -/
theorem openwater_empty_store_exchange_and_outflow_zero_witness :
    openwater_f 1 1 (7/2) 0 = 0 ∧
      openwater_qr 1 5 (openwater_r 0 0 (openwater_f 1 1 (7/2) 0)) = 0 :=
  ⟨(openwater_empty_store_exchange_and_outflow_zero 1 1 (7/2) 5 0).1,
    (openwater_empty_store_exchange_and_outflow_zero 1 1 (7/2) 5 0).2 rfl⟩

/-! ### Claims about the surface-layer branching -/

/-- C6: in the surface-layer run, where the evapotranspiration demand
depth e exceeds the rainfall depth p (water-limited) the throughfall
output is zero and the actual evapotranspiration depth is es + p; where
e - p is negative (energy-limited) the actual evapotranspiration depth is
the full demand e and the throughfall depth is p - e, passed downstream
undiminished (outputs are the depths divided by the timestep length). -/
theorem surfacelayer_branches
    (soil_water_stress water_level rainfall_flux
      potential_water_evapotranspiration_flux x1 alpha dt p e : ℝ)
    (hp : p = rainfall_flux * dt)
    (he : e = potential_water_evapotranspiration_flux * dt) :
    (e - p ≥ 0 →
        (surfacelayer_run soil_water_stress water_level rainfall_flux
            potential_water_evapotranspiration_flux x1 alpha
            dt).throughfall = 0
          ∧ (surfacelayer_run soil_water_stress water_level rainfall_flux
              potential_water_evapotranspiration_flux x1 alpha
              dt).actual_water_evapotranspiration_flux
            = (surfacelayer_es x1 alpha soil_water_stress (e - p) + p) / dt)
      ∧ (e - p < 0 →
          (surfacelayer_run soil_water_stress water_level rainfall_flux
              potential_water_evapotranspiration_flux x1 alpha
              dt).actual_water_evapotranspiration_flux = e / dt
            ∧ (surfacelayer_run soil_water_stress water_level rainfall_flux
                potential_water_evapotranspiration_flux x1 alpha
                dt).throughfall = (p - e) / dt) := by
  subst hp
  subst he
  set p := rainfall_flux * dt with hpdef
  set e := potential_water_evapotranspiration_flux * dt with hedef
  set out := surfacelayer_run soil_water_stress water_level rainfall_flux
      potential_water_evapotranspiration_flux x1 alpha dt with houtdef
  have hthr : out.throughfall = max (-(e - p)) 0 / dt := rfl
  have hae : out.actual_water_evapotranspiration_flux
      = (if e - p ≥ 0 then
          surfacelayer_es x1 alpha soil_water_stress (e - p) + p
        else e) / dt := rfl
  constructor
  · intro h
    constructor
    · rw [hthr, max_eq_right (by linarith), zero_div]
    · rw [hae, if_pos h]
  · intro h
    have hn : ¬ e - p ≥ 0 := not_le.mpr h
    constructor
    · rw [hae, if_neg hn]
    · rw [hthr, max_eq_left (by linarith)]
      congr 1
      ring

/-- C6 witness: the branch statement applied with unit rainfall and no
demand (energy-limited) at unit timestep. -/
theorem surfacelayer_branches_witness :
    (surfacelayer_run 0 0 1 0 1 2 1).actual_water_evapotranspiration_flux
        = 0 * 1 / 1
      ∧ (surfacelayer_run 0 0 1 0 1 2 1).throughfall
        = (1 * 1 - 0 * 1) / 1 :=
  (surfacelayer_branches 0 0 1 0 1 2 1 (1 * 1) (0 * 1) rfl rfl).2
    (by norm_num)

/-! ### Claims about store nonnegativity and capacity -/

/-- C5: for every call with non-negative previous store contents and
non-negative inputs (the percolation coefficient nu, an argument of the
run with non-negative default 4/9, among them) and validated parameters
(x1 > 0, x3 > 0, x4 > 0, a positive timestep, nres ≥ 1, beta > 1,
gamma > 1), every store content written back is non-negative: the
production store, each cascade store, and the routing store. -/
theorem stores_nonnegative
    (transpiration evaporation_soil_surface evaporation_ponded_water
      throughfall snowmelt x1 x4 s_ alpha beta nu dt : ℝ) (sh_ : List ℝ)
    (surface_runoff subsurface_runoff evaporation_openwater x2 x3 r_
      gamma omega phi : ℝ)
    (hs_ : 0 ≤ s_) (hsh_ : ∀ y ∈ sh_, 0 ≤ y) (hr_ : 0 ≤ r_)
    (htr : 0 ≤ transpiration) (hess : 0 ≤ evaporation_soil_surface)
    (hepw : 0 ≤ evaporation_ponded_water) (hthr : 0 ≤ throughfall)
    (hsn : 0 ≤ snowmelt) (hnu : 0 ≤ nu)
    (hx1 : 0 < x1) (hx3 : 0 < x3) (hx4 : 0 < x4) (hdt : 0 < dt)
    (hnres : 1 ≤ sh_.length) (hbeta : 1 < beta) (hgamma : 1 < gamma) :
    0 ≤ (subsurface_run transpiration evaporation_soil_surface
          evaporation_ponded_water throughfall snowmelt x1 x4 s_ sh_
          alpha beta nu dt).production_store
      ∧ (∀ y ∈ (subsurface_run transpiration evaporation_soil_surface
            evaporation_ponded_water throughfall snowmelt x1 x4 s_ sh_
            alpha beta nu dt).nash_cascade_stores, 0 ≤ y)
      ∧ 0 ≤ (openwater_run surface_runoff subsurface_runoff
            evaporation_openwater x2 x3 r_ gamma omega phi
            dt).routing_store := by
  refine ⟨?_, ?_, ?_⟩
  · exact subsurface_store_after_nonneg hx1 hnu hdt hbeta
  · show ∀ y ∈ (nash_cascade
        (nash_outflow_coefficient sh_.length (x4 * (86400 / dt)))
        (subsurface_routed_production x1 alpha beta nu dt s_
          ((throughfall + snowmelt) * dt)
          ((transpiration + evaporation_soil_surface
            + evaporation_ponded_water) * dt)) sh_).1, 0 ≤ y
    apply nash_cascade_nonneg
    · exact nash_outflow_coefficient_nonneg hnres
        (mul_pos hx4 (div_pos (by norm_num) hdt))
    · exact nash_outflow_coefficient_le_one _ _
    · exact subsurface_routed_production_nonneg hx1 hs_
        (mul_nonneg (by linarith) hdt.le) hnu hdt hbeta
    · exact hsh_
  · exact le_max_right _ _

/-- C5 witness: store nonnegativity applied with zero fluxes, unit
parameters, default constants and a one-store cascade. -/
theorem stores_nonnegative_witness :
    0 ≤ (subsurface_run 0 0 0 0 0 1 1 0 [0] 2 5 (4/9) 1).production_store :=
  (stores_nonnegative 0 0 0 0 0 1 1 0 2 5 (4/9) 1 [0] 0 0 0 0 1 0 5 (7/2)
      (9/10) (by norm_num) (by simp) (by norm_num) (by norm_num)
      (by norm_num) (by norm_num) (by norm_num) (by norm_num) (by norm_num)
      (by norm_num) (by norm_num) (by norm_num) (by norm_num) (by simp)
      (by norm_num) (by norm_num)).1

lemma subsurface_ps_le_capacity {x1 alpha s_ pn : ℝ} (hx1 : 0 < x1)
    (hs0 : 0 ≤ s_) (hsx : s_ ≤ x1) (ha1 : 1 ≤ alpha) (ha2 : alpha ≤ 2) :
    subsurface_ps x1 alpha s_ pn ≤ x1 - s_ := by
  obtain ⟨σ, rfl⟩ : ∃ σ, s_ = x1 * σ := ⟨s_ / x1, by field_simp⟩
  have hσ0 : 0 ≤ σ := by
    by_contra hneg
    push_neg at hneg
    nlinarith
  have hσ1 : σ ≤ 1 := by nlinarith
  simp only [subsurface_ps]
  rw [mul_div_cancel_left₀ _ (ne_of_gt hx1)]
  by_cases h : pn > 0
  · rw [if_pos h]
    obtain ⟨hm0, hmle⟩ := clamp13_bounds (div_nonneg h.le hx1.le)
    set m := if pn / x1 > 13 then (13 : ℝ) else pn / x1 with hmdef
    set T := Real.tanh m with hTdef
    have hT0 : 0 ≤ T := tanh_nonneg_of_nonneg hm0
    have hT1 : T ≤ 1 := (tanh_lt_one_aux m).le
    have hσsq : σ * σ ≤ σ ^ alpha := by
      rcases eq_or_lt_of_le hσ0 with h0 | h0
      · rw [← h0, Real.zero_rpow (ne_of_gt (by linarith : (0 : ℝ) < alpha))]
        norm_num
      · have h2 : σ ^ (2 : ℝ) ≤ σ ^ alpha :=
          Real.rpow_le_rpow_of_exponent_ge h0 hσ1 ha2
        rw [show (2 : ℝ) = ((2 : ℕ) : ℝ) by norm_num, Real.rpow_natCast,
          pow_two] at h2
        exact h2
    have hD0 : (0 : ℝ) < 1 + σ * T := by nlinarith
    rw [div_le_iff₀ hD0]
    nlinarith [mul_nonneg (mul_nonneg hx1.le (sub_nonneg.2 hσ1))
        (sub_nonneg.2 hT1),
      mul_nonneg (mul_nonneg hx1.le hT0) (sub_nonneg.2 hσsq)]
  · rw [if_neg h]
    nlinarith

lemma subsurface_store_after_le_capacity
    {x1 alpha beta nu dt s_ pn es : ℝ} (hx1 : 0 < x1) (hs0 : 0 ≤ s_)
    (hsx : s_ ≤ x1) (hes : 0 ≤ es) (hnu : 0 ≤ nu) (hdt : 0 < dt)
    (hb : 1 < beta) (ha1 : 1 ≤ alpha) (ha2 : alpha ≤ 2) :
    subsurface_store_after x1 alpha beta nu dt s_ pn es ≤ x1 := by
  simp only [subsurface_store_after]
  have hps := @subsurface_ps_le_capacity x1 alpha s_ pn hx1 hs0 hsx ha1 ha2
  have hs2le : max (s_ + subsurface_ps x1 alpha s_ pn - es) 0 ≤ x1 :=
    max_le (by linarith) hx1.le
  have hs20 : 0 ≤ max (s_ + subsurface_ps x1 alpha s_ pn - es) 0 :=
    le_max_right _ _
  have hperc := subsurface_perc_nonneg hs20 (scaled_nu_nonneg hnu hdt) hb hx1
  linarith

/-- C10 (amended): the subsurface run preserves the production-store
capacity bound when the production exponent alpha lies between 1 and 2
(in particular at its default value 2): for non-negative inputs, a
previous store between 0 and x1 is written back between 0 and x1. -/
theorem production_store_capacity_bound
    (transpiration evaporation_soil_surface evaporation_ponded_water
      throughfall snowmelt x1 x4 s_ alpha beta nu dt : ℝ) (sh_ : List ℝ)
    (hs0 : 0 ≤ s_) (hsx : s_ ≤ x1)
    (htr : 0 ≤ transpiration) (hess : 0 ≤ evaporation_soil_surface)
    (hepw : 0 ≤ evaporation_ponded_water) (hthr : 0 ≤ throughfall)
    (hsn : 0 ≤ snowmelt)
    (hx1 : 0 < x1) (hb : 1 < beta) (hnu : 0 ≤ nu) (hdt : 0 < dt)
    (ha1 : 1 ≤ alpha) (ha2 : alpha ≤ 2) :
    0 ≤ (subsurface_run transpiration evaporation_soil_surface
          evaporation_ponded_water throughfall snowmelt x1 x4 s_ sh_
          alpha beta nu dt).production_store
      ∧ (subsurface_run transpiration evaporation_soil_surface
          evaporation_ponded_water throughfall snowmelt x1 x4 s_ sh_
          alpha beta nu dt).production_store ≤ x1 := by
  constructor
  · exact subsurface_store_after_nonneg hx1 hnu hdt hb
  · exact subsurface_store_after_le_capacity hx1 hs0 hsx
      (mul_nonneg (by linarith) hdt.le) hnu hdt hb ha1 ha2

/-- C10 witness: the capacity bound applied with zero fluxes, capacity 2,
a half-filled store and default constants. -/
theorem production_store_capacity_bound_witness :
    0 ≤ (subsurface_run 0 0 0 0 0 2 1 1 [0] 2 5 (4/9) 1).production_store
      ∧ (subsurface_run 0 0 0 0 0 2 1 1 [0] 2 5 (4/9) 1).production_store
        ≤ 2 :=
  production_store_capacity_bound 0 0 0 0 0 2 1 1 2 5 (4/9) 1 [0]
    (by norm_num) (by norm_num) (by norm_num) (by norm_num) (by norm_num)
    (by norm_num) (by norm_num) (by norm_num) (by norm_num) (by norm_num)
    (by norm_num) (by norm_num) (by norm_num)

/-- C10 counterexample: with alpha = 20 (allowed by the claim's
alpha ≥ 1), x1 = 1, previous store 9/10, throughfall depth 14 (clamped at
13 before the tanh), no evaporation and nu = 0 (so zero percolation), the
production store written back exceeds the capacity x1 = 1: the claimed
invariant fails for alpha above 2. -/
theorem production_store_exceeds_capacity :
    1 < (subsurface_run 0 0 0 14 0 1 1 (9/10) [0]
        20 5 0 1).production_store := by
  have hT9 : (9 : ℝ) / 10 ≤ Real.tanh 13 := tanh_thirteen_lower
  have hT1 : Real.tanh 13 < 1 := tanh_lt_one_aux 13
  have hps_eq : subsurface_ps 1 20 (9/10) 14
      = ((1 - ((9 : ℝ) / 10) ^ (20 : ℝ)) * Real.tanh 13)
        / (1 + 9 / 10 * Real.tanh 13) := by
    norm_num [subsurface_ps]
  have hσv : ((9 : ℝ) / 10) ^ (20 : ℝ) ≤ 13 / 100 := by
    rw [show ((20 : ℝ)) = ((20 : ℕ) : ℝ) by norm_num, Real.rpow_natCast]
    norm_num
  have hps_lb : (1 : ℝ) / 10 < subsurface_ps 1 20 (9/10) 14 := by
    rw [hps_eq]
    have hden : (0 : ℝ) < 1 + 9 / 10 * Real.tanh 13 := by nlinarith
    rw [lt_div_iff₀ hden]
    have hprod : (87 / 100 : ℝ) * (9 / 10)
        ≤ (1 - ((9 : ℝ) / 10) ^ (20 : ℝ)) * Real.tanh 13 :=
      mul_le_mul (by linarith) hT9 (by norm_num) (by linarith)
    nlinarith
  have hrun : (subsurface_run 0 0 0 14 0 1 1 (9/10) [0]
        20 5 0 1).production_store
      = subsurface_store_after 1 20 5 0 1 (9/10) ((14 + 0) * 1)
          ((0 + 0 + 0) * 1) := rfl
  have hargs1 : ((14 : ℝ) + 0) * 1 = 14 := by norm_num
  have hargs2 : ((0 : ℝ) + 0 + 0) * 1 = 0 := by norm_num
  rw [hrun, hargs1, hargs2]
  have hperc0 : subsurface_perc 1 5 (0 * (86400 / 1) ^ ((0.25 : ℝ)))
      (max ((9 : ℝ) / 10 + subsurface_ps 1 20 (9/10) 14 - 0) 0) = 0 := by
    simp only [subsurface_perc]
    norm_num [Real.zero_rpow, Real.one_rpow]
  have hunfold : subsurface_store_after 1 20 5 0 1 (9/10) 14 0
      = max ((9 : ℝ) / 10 + subsurface_ps 1 20 (9/10) 14 - 0) 0
        - subsurface_perc 1 5 (0 * (86400 / 1) ^ ((0.25 : ℝ)))
            (max ((9 : ℝ) / 10 + subsurface_ps 1 20 (9/10) 14 - 0) 0) := rfl
  rw [hunfold, hperc0, max_eq_left (by linarith)]
  linarith

/-! ### The zero-forcing round trip -/

lemma nash_cascade_zero (k : ℝ) (n : ℕ) :
    nash_cascade k 0 (List.replicate n 0) =
      (List.replicate n 0, List.replicate n 0) := by
  induction n with
  | zero => rfl
  | succ m ih => simp [List.replicate_succ, nash_cascade_cons, ih]

lemma replicate_getLastD_zero (n : ℕ) :
    (List.replicate n (0 : ℝ)).getLastD 0 = 0 := by
  induction n with
  | zero => rfl
  | succ m ih => rw [List.replicate_succ, List.getLastD_cons]; exact ih

lemma replicate_getLast?_getD_zero (n : ℕ) :
    ((List.replicate n (0 : ℝ)).getLast?).getD 0 = 0 := by
  have h := replicate_getLastD_zero n
  simpa [List.getLastD_eq_getLast?] using h

lemma surfacelayer_run_zero (wl x1 alpha dt : ℝ) :
    surfacelayer_run 0 wl 0 0 x1 alpha dt
      = { throughfall := 0, snowmelt := 0, transpiration := 0,
          evaporation_soil_surface := 0, evaporation_ponded_water := 0,
          evaporation_openwater := 0,
          actual_water_evapotranspiration_flux := 0 } := by
  norm_num [surfacelayer_run, surfacelayer_es, Real.tanh_zero]

lemma subsurface_run_zero (x1 x4 alpha beta nu dt : ℝ) (n : ℕ) :
    subsurface_run 0 0 0 0 0 x1 x4 0 (List.replicate n 0) alpha beta nu dt
      = { surface_runoff := 0, subsurface_runoff := 0,
          soil_water_stress := 0, production_store := 0,
          nash_cascade_stores := List.replicate n 0 } := by
  have hps : subsurface_ps x1 alpha 0 0 = 0 := by
    norm_num [subsurface_ps]
  have hpr : subsurface_routed_production x1 alpha beta nu dt 0 0 0 = 0 := by
    norm_num [subsurface_routed_production, subsurface_perc, hps]
  have hst : subsurface_store_after x1 alpha beta nu dt 0 0 0 = 0 := by
    norm_num [subsurface_store_after, subsurface_perc, hps]
  norm_num [subsurface_run, hpr, hst, nash_cascade_zero,
    replicate_getLast?_getD_zero]

lemma openwater_run_zero (x2 x3 gamma omega phi dt : ℝ) :
    openwater_run 0 0 0 x2 x3 0 gamma omega phi dt
      = { water_level := 0,
          outgoing_water_volume_transport_along_river_channel := 0,
          routing_store := 0 } := by
  norm_num [openwater_run, openwater_f, openwater_r, openwater_qr,
    openwater_qd, openwater_q]

lemma chain_step_zero (x1 x2 x3 x4 alpha beta nu gamma omega phi dt : ℝ)
    (nres : ℕ) :
    chain_step x1 x2 x3 x4 alpha beta nu gamma omega phi dt
        (0, List.replicate nres 0, 0) 0 0
      = ({ throughfall := 0, snowmelt := 0, transpiration := 0,
            evaporation_soil_surface := 0, evaporation_ponded_water := 0,
            evaporation_openwater := 0,
            actual_water_evapotranspiration_flux := 0 },
          { surface_runoff := 0, subsurface_runoff := 0,
            soil_water_stress := 0, production_store := 0,
            nash_cascade_stores := List.replicate nres 0 },
          { water_level := 0,
            outgoing_water_volume_transport_along_river_channel := 0,
            routing_store := 0 }) := by
  simp only [chain_step, zero_div, surfacelayer_run_zero,
    subsurface_run_zero, openwater_run_zero]

/-- C8: running the three-component chain from zero-initialised stores
with zero forcing keeps every store at zero and yields zero streamflow and
zero exchanged fluxes at every step. -/
theorem chain_zero_forcing_zero_output
    (x1 x2 x3 x4 alpha beta nu gamma omega phi dt : ℝ) (nres n : ℕ) :
    chain_state x1 x2 x3 x4 alpha beta nu gamma omega phi dt nres
        (fun _ => (0, 0)) n = (0, List.replicate nres 0, 0)
      ∧ (chain_step x1 x2 x3 x4 alpha beta nu gamma omega phi dt
            (chain_state x1 x2 x3 x4 alpha beta nu gamma omega phi dt nres
              (fun _ => (0, 0)) n) 0
            0).2.2.outgoing_water_volume_transport_along_river_channel = 0
      ∧ (chain_step x1 x2 x3 x4 alpha beta nu gamma omega phi dt
            (chain_state x1 x2 x3 x4 alpha beta nu gamma omega phi dt nres
              (fun _ => (0, 0)) n) 0 0).1.throughfall = 0
      ∧ (chain_step x1 x2 x3 x4 alpha beta nu gamma omega phi dt
            (chain_state x1 x2 x3 x4 alpha beta nu gamma omega phi dt nres
              (fun _ => (0, 0)) n) 0
            0).1.actual_water_evapotranspiration_flux = 0
      ∧ (chain_step x1 x2 x3 x4 alpha beta nu gamma omega phi dt
            (chain_state x1 x2 x3 x4 alpha beta nu gamma omega phi dt nres
              (fun _ => (0, 0)) n) 0 0).2.1.surface_runoff = 0
      ∧ (chain_step x1 x2 x3 x4 alpha beta nu gamma omega phi dt
            (chain_state x1 x2 x3 x4 alpha beta nu gamma omega phi dt nres
              (fun _ => (0, 0)) n) 0 0).2.1.subsurface_runoff = 0
      ∧ (chain_step x1 x2 x3 x4 alpha beta nu gamma omega phi dt
            (chain_state x1 x2 x3 x4 alpha beta nu gamma omega phi dt nres
              (fun _ => (0, 0)) n) 0 0).2.1.soil_water_stress = 0
      ∧ (chain_step x1 x2 x3 x4 alpha beta nu gamma omega phi dt
            (chain_state x1 x2 x3 x4 alpha beta nu gamma omega phi dt nres
              (fun _ => (0, 0)) n) 0 0).2.2.water_level = 0 := by
  have hst : ∀ m, chain_state x1 x2 x3 x4 alpha beta nu gamma omega phi dt
      nres (fun _ => (0, 0)) m = (0, List.replicate nres 0, 0) := by
    intro m
    induction m with
    | zero => rfl
    | succ j ih =>
      show chain_next_state
          (chain_step x1 x2 x3 x4 alpha beta nu gamma omega phi dt
            (chain_state x1 x2 x3 x4 alpha beta nu gamma omega phi dt nres
              (fun _ => (0, 0)) j)
            ((fun _ => ((0 : ℝ), (0 : ℝ))) j).1
            ((fun _ => ((0 : ℝ), (0 : ℝ))) j).2)
        = (0, List.replicate nres 0, 0)
      rw [ih]
      rw [show ((fun _ => ((0 : ℝ), (0 : ℝ))) j).1 = 0 from rfl,
        show ((fun _ => ((0 : ℝ), (0 : ℝ))) j).2 = 0 from rfl]
      rw [chain_step_zero]
      rfl
  refine ⟨hst n, ?_⟩
  rw [hst n, chain_step_zero]
  exact ⟨rfl, rfl, rfl, rfl, rfl, rfl, rfl⟩

end GR4

end
